import Mathlib

/-!
Verification of agentplexus/go-elevenlabs against its natural-language
specification.  The Go source is shallowly embedded: pure functions become
Lean functions over `Nat`/`Int`/`ℚ`/`List`, fallible functions return
`Except`/`Option`/pairs, and bounded machine arithmetic is made explicit
with the relevant bounds.  The streaming session layer (WebSocket TTS/STT)
is not part of the repository snapshot (only example callers appear), so it
is modelled from the spec where claims require it; every such definition is
marked `Modelled from the spec`.
-/

namespace ElevenLabs

/-! ### VoiceSettings validation (texttospeech.go) -/

/-- Embeds the Go struct `VoiceSettings` (texttospeech.go).  The four
float64 fields are modelled as rationals: every comparison the code makes
is against a constant (0, 1, 0.25, 4.0) that is exactly representable in
float64, and IEEE comparison on such values agrees with the rational
order. -/
structure VoiceSettings where
  stability : ℚ
  similarityBoost : ℚ
  style : ℚ
  speed : ℚ
  useSpeakerBoost : Bool

/-- The sentinel errors a `VoiceSettings.Validate` call can return
(errors.go). -/
inductive VSError where
  | invalidStability
  | invalidSimilarityBoost
  | invalidStyle
  | invalidSpeed
deriving DecidableEq, Repr

/-- Embeds `func (vs *VoiceSettings) Validate() error` (texttospeech.go):
checks the fields in order and returns the first sentinel error, `none`
standing for Go's `nil`. -/
def VoiceSettings.Validate (vs : VoiceSettings) : Option VSError :=
  if vs.stability < 0 ∨ vs.stability > 1 then some .invalidStability
  else if vs.similarityBoost < 0 ∨ vs.similarityBoost > 1 then some .invalidSimilarityBoost
  else if vs.style < 0 ∨ vs.style > 1 then some .invalidStyle
  else if vs.speed ≠ 0 ∧ (vs.speed < 1/4 ∨ vs.speed > 4) then some .invalidSpeed
  else none

/-! ### PCM → WAV conversion (audio.go, shown in part_003) -/

/-- Little-endian encoding of a 16-bit value as two byte values, matching
`binary.Write(buf, binary.LittleEndian, uint16(...))`. -/
def u16le (x : Nat) : List Nat := [x % 256, x / 256 % 256]

/-- Little-endian encoding of a 32-bit value as four byte values, matching
`binary.Write(buf, binary.LittleEndian, uint32(...))`. -/
def u32le (x : Nat) : List Nat :=
  [x % 256, x / 256 % 256, x / 65536 % 256, x / 16777216 % 256]

/-- The 44-byte WAV header `PCMBytesToWAV` writes, byte for byte: "RIFF",
file size, "WAVE", "fmt ", subchunk size 16, audio format 1 (PCM),
numChannels 1, sample rate, byte rate (2·rate for 16-bit mono),
blockAlign 2, bitsPerSample 16, "data", data size. -/
def wavHeader (sampleRate dataSize : Nat) : List Nat :=
  [82, 73, 70, 70] ++ u32le (36 + dataSize) ++
  [87, 65, 86, 69] ++
  [102, 109, 116, 32] ++ u32le 16 ++ u16le 1 ++ u16le 1 ++
  u32le sampleRate ++ u32le (2 * sampleRate) ++ u16le 2 ++ u16le 16 ++
  [100, 97, 116, 97] ++ u32le dataSize

/-- Embeds `func PCMBytesToWAV(pcm []byte, sampleRate int) ([]byte, error)`
(audio.go).  Go's `int` is 64-bit here, so `sampleRate` is an `Int`; the
slice is a list of byte values.  The code rejects `sampleRate <= 0`,
`sampleRate > maxUint32`, and then rejects when the computed file size,
byte rate, or data size exceeds `maxUint32 = 2^32 - 1`; otherwise it
emits the header followed by the PCM payload unchanged. -/
def PCMBytesToWAV (pcm : List Nat) (sampleRate : Int) : Except String (List Nat) :=
  if sampleRate ≤ 0 ∨ sampleRate > 4294967295 then
    .error "invalid sample rate"
  else
    let byteRate : Int := sampleRate * 2
    let dataSize : Nat := pcm.length
    let fileSize : Nat := 36 + dataSize
    if fileSize > 4294967295 ∨ byteRate > 4294967295 then
      .error "audio data too large for WAV format"
    else
      .ok (wavHeader sampleRate.toNat dataSize ++ pcm)

/-! ### ParsePCMSampleRate (audio.go, shown in part_003) -/

/-- `true` exactly on the ASCII digits, as Go's `strconv` digit test. -/
def isDigitCh (c : Char) : Bool := 48 ≤ c.toNat && c.toNat ≤ 57

/-- Numeric value of an ASCII digit character. -/
def digitVal (c : Char) : Nat := c.toNat - 48

/-- Base-10 value of a nonempty all-digit character list; `none` when the
list is empty or contains a non-digit (Go's `strconv` syntax error). -/
def parseDigits (cs : List Char) : Option Nat :=
  if cs = [] then none
  else if cs.all isDigitCh then
    some (cs.foldl (fun a c => a * 10 + digitVal c) 0)
  else none

/-- Embeds `strconv.Atoi` on a 64-bit platform: an optional single sign
followed by at least one digit, value required to fit a signed 64-bit
int; `none` is a non-nil error (`ParsePCMSampleRate` discards the
accompanying value on error, so the error payload is not modelled). -/
def goAtoi (s : List Char) : Option Int :=
  match s with
  | [] => none
  | c :: rest =>
    let digs : List Char := if c = '-' ∨ c = '+' then rest else c :: rest
    match parseDigits digs with
    | none => none
    | some v =>
      let x : Int := if c = '-' then -(v : Int) else (v : Int)
      if -(2 ^ 63) ≤ x ∧ x ≤ 2 ^ 63 - 1 then some x else none

/-- The literal prefix `"pcm_"` as character codes. -/
def pcmPrefix : List Char := ['p', 'c', 'm', '_']

/-- Embeds `func ParsePCMSampleRate(format string) (int, error)`
(audio.go): requires the `"pcm_"` prefix, trims it, and runs
`strconv.Atoi` on the remainder; the `Bool` component is `true` when a
non-nil error is returned, in which case the `Int` component is 0 exactly
as in the source. -/
def ParsePCMSampleRate (format : List Char) : Int × Bool :=
  if pcmPrefix.isPrefixOf format then
    match goAtoi (format.drop 4) with
    | some v => (v, false)
    | none => (0, true)
  else (0, true)

/-- Fuel-driven auxiliary for `natDigits`; structural recursion on the
fuel keeps the definition kernel-reducible.  With fuel above `n` it
computes the most-significant-first decimal digits of `n`. -/
def natDigitsAux : Nat → Nat → List Nat
  | 0, _ => []
  | fuel + 1, n =>
    if n < 10 then [n]
    else natDigitsAux fuel (n / 10) ++ [n % 10]

/-- Most-significant-first decimal digits of a natural number (each entry
is below 10); the decimal representation used to state the round trip. -/
def natDigits (n : Nat) : List Nat := natDigitsAux (n + 1) n

/-- The ASCII character of a decimal digit. -/
def digitCh (d : Nat) : Char := Char.ofNat (48 + d)

/-- The decimal string of a natural number, as produced by `strconv.Itoa`
for naturals: no sign, no leading zeros (except for 0 itself). -/
def decimalRepr (n : Nat) : List Char := (natDigits n).map digitCh

/-- Syntactic form accepted by `strconv.Atoi` before its range check: an
optional single sign followed by a nonempty run of ASCII digits.  This is
the formalisation of "the suffix is a decimal integer". -/
def isDecimalIntStr (s : List Char) : Bool :=
  match s with
  | [] => false
  | c :: rest =>
    let digs : List Char := if c = '-' ∨ c = '+' then rest else c :: rest
    !digs.isEmpty && digs.all isDigitCh

/-! ### Streaming session layer — modelled from the spec (§3–§4)

The WebSocket streaming layer (`WebSocketTTS`/`WebSocketSTT` sessions) is
not part of the repository snapshot: only its callers (the websocket-tts
and websocket-stt examples) appear.  The definitions below are therefore
modelled from the spec's state machine (§4.1), multiplexer (§4.2),
demultiplexer (§4.3) and stream helpers (§4.4). -/

/-- Modelled from the spec: the lifecycle states of §4.1,
`Idle → Connecting → Open → Flushing → Closed`, with the terminal
`ErrorClosed` reachable from any non-terminal state.  `opened` stands for
the spec's `Open` (a Lean keyword); after `EndStream` a recognition
session drains in `flushing` until the server finishes. -/
inductive SessState where
  | idle
  | connecting
  | opened
  | flushing
  | closed
  | errorClosed
deriving DecidableEq, Repr

/-- A state is terminal when no further commands or events are processed. -/
def SessState.isTerminal : SessState → Bool
  | .closed => true
  | .errorClosed => true
  | _ => false

/-- Modelled from the spec: the four typed output streams a session
exposes (§4.3): transcript, audio, alignment, and the error stream. -/
inductive StreamName where
  | transcript
  | audio
  | alignment
  | errorStream
deriving DecidableEq, Repr

/-- Modelled from the spec: the session handle of §3 — lifecycle state,
whether the exposed output streams have been closed, and the audio output
not yet delivered to the consumer. -/
structure Session where
  state : SessState
  streamsClosed : Bool
  pendingOutput : List (List Nat)
deriving DecidableEq, Repr

/-- Modelled from the spec: `ErrClosed`, the error for an operation
attempted outside a valid state (§7). -/
inductive OpError where
  | errClosed
deriving DecidableEq, Repr

/-- Modelled from the spec: client→server frames
`{type: text|audio|flush|end, payload}` (§6). -/
inductive OutFrame where
  | text (t : List Char)
  | audioF (b : List Nat)
  | flushF
  | endF
deriving DecidableEq, Repr

/-- Modelled from the spec: `Close()` (§4.1) — valid from any state,
transitions to `Closed`; on the first call it closes every exposed output
stream exactly once (in the fixed order of §4.3, error stream last), and
any repeated call is a no-op that closes nothing. -/
def close (s : Session) : Session × List StreamName :=
  if s.streamsClosed then
    ({ s with state := .closed }, [])
  else
    ({ s with state := .closed, streamsClosed := true },
      [.transcript, .audio, .alignment, .errorStream])

/-- `n` successive `Close()` calls, collecting every stream-close action
they perform. -/
def closeMany : Nat → Session → Session × List StreamName
  | 0, s => (s, [])
  | n + 1, s =>
    ((closeMany n (close s).1).1, (close s).2 ++ (closeMany n (close s).1).2)

/-- Modelled from the spec: `SendText` (§4.2) — accepted only while the
session is `Open` (`Flushing` is rejected for text), failing with
`ErrClosed` synchronously otherwise; on success the frame is handed to
the serialized writer. -/
def sendText (s : Session) (t : List Char) : Except OpError (Session × OutFrame) :=
  if s.state = .opened then .ok (s, .text t) else .error .errClosed

/-- Modelled from the spec: `SendAudio` (§4.2) — accepted only while the
session is `Open`, failing with `ErrClosed` synchronously otherwise. -/
def sendAudio (s : Session) (b : List Nat) : Except OpError (Session × OutFrame) :=
  if s.state = .opened then .ok (s, .audioF b) else .error .errClosed

/-- Modelled from the spec: `EndStream` (§4.1) — valid in `Open`; signals
that no more audio will be sent, after which the session only drains
(modelled as the `flushing` state) and `SendAudio` fails with
`ErrClosed`. -/
def endStream (s : Session) : Except OpError (Session × OutFrame) :=
  if s.state = .opened then .ok ({ s with state := .flushing }, .endF)
  else .error .errClosed

/-- Modelled from the spec: `Flush` (§4.1) — valid in `Open`, transitions
to `Flushing`; calling it while already `Flushing` is an idempotent
no-op; elsewhere it fails with `ErrClosed`. -/
def flush (s : Session) : Except OpError Session :=
  match s.state with
  | .opened => .ok { s with state := .flushing }
  | .flushing => .ok s
  | _ => .error .errClosed

/-- Modelled from the spec: the `Options` record of §3, validated before
connect. -/
structure Options where
  modelID : String
  sampleRate : Nat
  encoding : String
  enablePartials : Bool
  enableWordTimestamps : Bool
  outputFormat : String
  latencyLevel : Nat
deriving DecidableEq, Repr

/-- Modelled from the spec: the synchronous `Connect` errors of §7 —
`ValidationError` for a bad option value and `ConnectError` for a
handshake failure. -/
inductive ConnError where
  | validationError (field : String)
  | connectError
deriving DecidableEq, Repr

/-- Modelled from the spec: option validation (§4.1) — a sample rate of 0
is invalid (scenario C), and `LatencyLevel` must lie in 0–4 (§3). -/
def validateOptions (o : Options) : Option ConnError :=
  if o.sampleRate = 0 then some (.validationError "SampleRate")
  else if o.latencyLevel > 4 then some (.validationError "LatencyLevel")
  else none

/-- What a `Connect` call did: its synchronous result, whether any
network activity (connection attempt/handshake) happened, and every error
delivered on an asynchronous error stream during the call. -/
structure ConnectTrace where
  result : Except ConnError Session
  networkAttempted : Bool
  asyncErrors : List ConnError
deriving Repr

/-- Modelled from the spec: `Connect` (§4.1) — validates options
synchronously and returns `ValidationError` before any network activity;
only with valid options does it attempt the handshake (`handshakeOk`
abstracts the transport), yielding an `Open` session or a
`ConnectError`. -/
def connect (o : Options) (handshakeOk : Bool) : ConnectTrace :=
  match validateOptions o with
  | some e => { result := .error e, networkAttempted := false, asyncErrors := [] }
  | none =>
    if handshakeOk then
      { result := .ok { state := .opened, streamsClosed := false, pendingOutput := [] },
        networkAttempted := true, asyncErrors := [] }
    else
      { result := .error .connectError, networkAttempted := true, asyncErrors := [] }

/-- Modelled from the spec: server→client events of §6, demultiplexed by
type (§4.3). -/
inductive InEvent where
  | audioChunk (b : List Nat)
  | transcriptEv (t : List Char)
  | alignmentEv
  | errorEv
deriving DecidableEq, Repr

/-- Modelled from the spec: the server's response to one outbound frame —
each text frame is synthesized into audio chunks emitted in order
(`synth` abstracts the model); flush/end/audio frames produce no audio of
their own here. -/
def serverEvents (synth : List Char → List (List Nat)) : OutFrame → List InEvent
  | .text t => (synth t).map .audioChunk
  | _ => []

/-- Modelled from the spec: the ordered inbound event sequence produced
for an ordered outbound frame sequence — the wire preserves order, and
the multiplexer never reorders outbound frames (§4.2, §4.3). -/
def wireResponse (synth : List Char → List (List Nat)) (frames : List OutFrame) :
    List InEvent :=
  (frames.map (serverEvents synth)).flatten

/-- Modelled from the spec: the demultiplexer's audio stream — audio
chunks in receipt order, nothing reordered or dropped (§4.3). -/
def demuxAudio (evs : List InEvent) : List (List Nat) :=
  evs.filterMap fun e =>
    match e with
    | .audioChunk b => some b
    | _ => none

/-- The error kinds delivered on the error stream (§7). -/
inductive StreamErrKind where
  | transport
  | protocol
deriving DecidableEq, Repr

/-- One step of the shutdown sequence: either an error-stream delivery or
the closing of one output stream. -/
inductive ShutdownStep where
  | emitError (k : StreamErrKind)
  | closeStream (n : StreamName)
deriving DecidableEq, Repr

/-- Modelled from the spec: the shutdown sequence of §4.3 — a fatal
error, when present, is emitted on the error stream first, then the
per-type output streams are closed in the fixed order
transcript/audio/alignment first, error stream last. -/
def shutdownSeq (fatal : Option StreamErrKind) : List ShutdownStep :=
  (match fatal with
   | some k => [ShutdownStep.emitError k]
   | none => []) ++
  [.closeStream .transcript, .closeStream .audio, .closeStream .alignment,
    .closeStream .errorStream]

/-- The observable outcome of one stream-helper invocation (§4.4): the
frames it handed to the multiplexer, every write to the single-value
terminal-error slot, and whether it closed its output stream. -/
structure HelperRun where
  sent : List OutFrame
  terminalWrites : List (Option StreamErrKind)
  outputClosed : Bool
deriving DecidableEq, Repr

/-- Modelled from the spec: `StreamText` (§4.4) — forwards each input
item as a text frame in order, issues exactly one `Flush` on the input
stream's natural completion, closes its output stream, and populates the
terminal-error slot exactly once (`none` on clean completion, the
terminal error otherwise; `outcome` abstracts how the connection
finished). -/
def streamText (input : List (List Char)) (outcome : Option StreamErrKind) :
    HelperRun :=
  { sent := input.map .text ++ [.flushF],
    terminalWrites := [outcome],
    outputClosed := true }

/-- Modelled from the spec: `StreamAudio` (§4.4) — as `streamText`, but
forwarding audio frames and issuing exactly one `EndStream` on input
completion. -/
def streamAudio (input : List (List Nat)) (outcome : Option StreamErrKind) :
    HelperRun :=
  { sent := input.map .audioF ++ [.endF],
    terminalWrites := [outcome],
    outputClosed := true }

/-! ## Theorems -/

/-- The WAV header is always 44 bytes long. -/
theorem wavHeader_length (sr n : Nat) : (wavHeader sr n).length = 44 := by
  simp [wavHeader, u16le, u32le]

/-- C9 (amended): `PCMBytesToWAV` succeeds exactly when `0 < r`,
`2·r ≤ 2^32−1` (the byte-rate bound the original claim misses) and
`36 + length(pcm) ≤ 2^32−1`, and then returns 44 + length(pcm) bytes whose
bytes 0–3 are "RIFF", 8–11 are "WAVE", 12–15 are "fmt ", 36–39 are "data",
and whose final length(pcm) bytes are pcm unchanged; outside these bounds
it returns an error and no data. -/
theorem C9_pcmBytesToWAV_amended :
    (∀ (pcm : List Nat) (r : Int), 0 < r → 2 * r ≤ 4294967295 →
      36 + pcm.length ≤ 4294967295 →
      PCMBytesToWAV pcm r = .ok (wavHeader r.toNat pcm.length ++ pcm) ∧
      (wavHeader r.toNat pcm.length ++ pcm).length = 44 + pcm.length ∧
      (wavHeader r.toNat pcm.length ++ pcm).take 4 = [82, 73, 70, 70] ∧
      ((wavHeader r.toNat pcm.length ++ pcm).drop 8).take 4 = [87, 65, 86, 69] ∧
      ((wavHeader r.toNat pcm.length ++ pcm).drop 12).take 4 = [102, 109, 116, 32] ∧
      ((wavHeader r.toNat pcm.length ++ pcm).drop 36).take 4 = [100, 97, 116, 97] ∧
      (wavHeader r.toNat pcm.length ++ pcm).drop 44 = pcm) ∧
    (∀ (pcm : List Nat) (r : Int),
      ¬(0 < r ∧ 2 * r ≤ 4294967295 ∧ 36 + pcm.length ≤ 4294967295) →
      ∃ e, PCMBytesToWAV pcm r = .error e) := by
  constructor
  · intro pcm r h0 h1 h2
    refine ⟨?_, ?_, ?_, ?_, ?_, ?_, ?_⟩
    · unfold PCMBytesToWAV
      rw [if_neg (by push_neg; omega), if_neg (by push_neg; constructor <;> omega)]
    · simp [wavHeader, u16le, u32le]
      omega
    · rfl
    · rfl
    · rfl
    · rfl
    · rfl
  · intro pcm r hc
    unfold PCMBytesToWAV
    by_cases ha : r ≤ 0 ∨ r > 4294967295
    · rw [if_pos ha]; exact ⟨_, rfl⟩
    · rw [if_neg ha]
      push_neg at ha hc
      have hb2 : (36 + pcm.length > 4294967295 ∨ (r * 2 : Int) > 4294967295) := by
        rcases ha with ⟨ha1, ha2⟩
        by_cases hb : (2 * r : Int) ≤ 4294967295
        · left
          have := hc ha1 hb
          omega
        · right; omega
      rw [if_pos hb2]
      exact ⟨_, rfl⟩

/-- C9 witness: the success branch at 2 bytes of PCM and rate 44100 — a
46-byte WAV with the four chunk markers in place and the payload at the
tail. -/
theorem C9_pcmBytesToWAV_amended_witness :
    PCMBytesToWAV [7, 9] 44100 = .ok (wavHeader 44100 2 ++ [7, 9]) ∧
    (wavHeader 44100 2 ++ [7, 9]).length = 44 + 2 ∧
    (wavHeader 44100 2 ++ [7, 9]).take 4 = [82, 73, 70, 70] ∧
    ((wavHeader 44100 2 ++ [7, 9]).drop 8).take 4 = [87, 65, 86, 69] ∧
    ((wavHeader 44100 2 ++ [7, 9]).drop 12).take 4 = [102, 109, 116, 32] ∧
    ((wavHeader 44100 2 ++ [7, 9]).drop 36).take 4 = [100, 97, 116, 97] ∧
    (wavHeader 44100 2 ++ [7, 9]).drop 44 = [7, 9] :=
  C9_pcmBytesToWAV_amended.1 [7, 9] 44100 (by norm_num) (by norm_num) (by norm_num)

/-- C9 counterexample to the claim as stated: the sample rate
2147483648 = 2^31 satisfies the claim's bounds (positive, at most
2^32 − 1, and the empty payload keeps 36 + length within 2^32 − 1), yet
`PCMBytesToWAV` rejects it, because the derived byte rate 2·2^31 = 2^33
exceeds the uint32 bound the header must store. -/
theorem C9_pcmBytesToWAV_counterexample :
    (0 < (2147483648 : Int) ∧ (2147483648 : Int) ≤ 4294967295 ∧
      36 + ([] : List Nat).length ≤ 4294967295) ∧
    PCMBytesToWAV [] 2147483648 = .error "audio data too large for WAV format" :=
  ⟨by norm_num, rfl⟩

/-- Fuel irrelevance for `natDigitsAux`: any fuel above the argument
computes the same digit list. -/
theorem natDigitsAux_congr : ∀ (f1 f2 n : Nat), n < f1 → n < f2 →
    natDigitsAux f1 n = natDigitsAux f2 n := by
  intro f1
  induction f1 with
  | zero => omega
  | succ f ih =>
    intro f2 n h1 h2
    cases f2 with
    | zero => omega
    | succ g =>
      simp only [natDigitsAux]
      by_cases h : n < 10
      · simp [h]
      · simp only [h, if_false]
        rw [ih g (n / 10) (by omega) (by omega)]

/-- A number below 10 is its own single digit. -/
theorem natDigits_small {n : Nat} (h : n < 10) : natDigits n = [n] := by
  simp [natDigits, natDigitsAux, h]

/-- Recurrence for `natDigits` above 10: digits of the quotient followed
by the last digit. -/
theorem natDigits_step {n : Nat} (h : ¬n < 10) :
    natDigits n = natDigits (n / 10) ++ [n % 10] := by
  show natDigitsAux (n + 1) n = natDigitsAux (n / 10 + 1) (n / 10) ++ [n % 10]
  rw [show natDigitsAux (n + 1) n =
      if n < 10 then [n] else natDigitsAux n (n / 10) ++ [n % 10] from rfl]
  rw [if_neg h, natDigitsAux_congr n (n / 10 + 1) (n / 10) (by omega) (by omega)]

/-- The digit list of a natural number is never empty. -/
theorem natDigits_ne_nil (n : Nat) : natDigits n ≠ [] := by
  by_cases h : n < 10
  · rw [natDigits_small h]; simp
  · rw [natDigits_step h]; simp

/-- Every entry of `natDigits` is a single decimal digit. -/
theorem natDigits_all_lt (n : Nat) : ∀ d ∈ natDigits n, d < 10 := by
  induction n using Nat.strong_induction_on with
  | _ n ih =>
    by_cases h : n < 10
    · rw [natDigits_small h]; simpa using h
    · rw [natDigits_step h]
      intro d hd
      rcases List.mem_append.mp hd with hd | hd
      · exact ih (n / 10) (by omega) d hd
      · simp at hd; omega

/-- Folding the base-10 accumulator over the digits of `n` recovers `n`
(shifted by the accumulator). -/
theorem natDigits_foldl (n : Nat) : ∀ acc : Nat,
    (natDigits n).foldl (fun a d => a * 10 + d) acc =
      acc * 10 ^ (natDigits n).length + n := by
  induction n using Nat.strong_induction_on with
  | _ n ih =>
    intro acc
    by_cases h : n < 10
    · rw [natDigits_small h]; simp
    · rw [natDigits_step h]
      rw [List.foldl_append]
      rw [ih (n / 10) (by omega) acc]
      simp [List.length_append, pow_succ]
      ring_nf
      omega

/-- Code point of a digit character. -/
theorem digitCh_toNat {d : Nat} (h : d < 10) : (digitCh d).toNat = 48 + d := by
  interval_cases d <;> decide

/-- Digit characters pass the ASCII digit test. -/
theorem isDigitCh_digitCh {d : Nat} (h : d < 10) : isDigitCh (digitCh d) = true := by
  interval_cases d <;> decide

/-- `digitVal` inverts `digitCh` on decimal digits. -/
theorem digitVal_digitCh {d : Nat} (h : d < 10) : digitVal (digitCh d) = d := by
  interval_cases d <;> decide

/-- A digit character is not the minus sign. -/
theorem digitCh_ne_minus {d : Nat} (h : d < 10) : digitCh d ≠ '-' := by
  interval_cases d <;> decide

/-- A digit character is not the plus sign. -/
theorem digitCh_ne_plus {d : Nat} (h : d < 10) : digitCh d ≠ '+' := by
  interval_cases d <;> decide

/-- Parsing the decimal representation of `n` yields `n`. -/
theorem parseDigits_decimalRepr (n : Nat) : parseDigits (decimalRepr n) = some n := by
  unfold parseDigits decimalRepr
  rw [if_neg (by simp [natDigits_ne_nil n]), if_pos ?hall]
  case hall =>
    rw [List.all_eq_true]
    intro c hc
    rcases List.mem_map.mp hc with ⟨d, hd, rfl⟩
    exact isDigitCh_digitCh (natDigits_all_lt n d hd)
  rw [List.foldl_map]
  rw [List.foldl_ext (fun a c => a * 10 + digitVal (digitCh c)) (fun a d => a * 10 + d) 0
    (fun a b hb => by simp only [digitVal_digitCh (natDigits_all_lt n b hb)])]
  rw [natDigits_foldl n 0]
  simp

/-- `strconv.Atoi` round-trips the decimal representation of any natural
number within the signed 64-bit range. -/
theorem goAtoi_decimalRepr {n : Nat} (h : n ≤ 2 ^ 63 - 1) :
    goAtoi (decimalRepr n) = some (n : Int) := by
  obtain ⟨d, t, hdt⟩ : ∃ d t, natDigits n = d :: t := by
    cases hnd : natDigits n with
    | nil => exact absurd hnd (natDigits_ne_nil n)
    | cons d t => exact ⟨d, t, rfl⟩
  have hd10 : d < 10 := natDigits_all_lt n d (by rw [hdt]; simp)
  have hne : ¬(digitCh d = '-' ∨ digitCh d = '+') := by
    rintro (hx | hx)
    · exact digitCh_ne_minus hd10 hx
    · exact digitCh_ne_plus hd10 hx
  have hrepr : decimalRepr n = digitCh d :: t.map digitCh := by
    unfold decimalRepr; rw [hdt]; rfl
  rw [hrepr]
  simp only [goAtoi, if_neg hne, ← hrepr, parseDigits_decimalRepr n,
    if_neg (fun hx => (hne (Or.inl hx)))]
  rw [if_pos (by constructor <;> (push_cast; omega))]

/-- `parseDigits` rejects an empty or non-digit run. -/
theorem parseDigits_eq_none {cs : List Char}
    (h : (!cs.isEmpty && cs.all isDigitCh) = false) :
    parseDigits cs = none := by
  unfold parseDigits
  by_cases h1 : cs = []
  · rw [if_pos h1]
  · rw [if_neg h1]
    have hall : cs.all isDigitCh = false := by
      cases hall : cs.all isDigitCh
      · rfl
      · exfalso
        rw [hall, Bool.and_true] at h
        rw [Bool.not_eq_false'] at h
        exact h1 (List.isEmpty_iff.mp h)
    rw [if_neg (by simp [hall])]

/-- `strconv.Atoi` rejects any string that is not an optional sign
followed by a nonempty digit run. -/
theorem goAtoi_none_of_not_decimal {s : List Char} (h : isDecimalIntStr s = false) :
    goAtoi s = none := by
  cases s with
  | nil => rfl
  | cons c rest =>
    simp only [isDecimalIntStr] at h
    simp only [goAtoi]
    by_cases hs : c = '-' ∨ c = '+'
    · rw [if_pos hs] at h ⊢
      rw [parseDigits_eq_none h]
    · rw [if_neg hs] at h ⊢
      rw [parseDigits_eq_none h]

/-- C10 (amended): the round trip
`ParsePCMSampleRate ("pcm_" ++ decimal n) = (n, nil)` holds for every
natural number `n` within Go's signed 64-bit `int` range (the original
claim's unbounded quantifier must be cut at 2^63 − 1, where
`strconv.Atoi` starts reporting a range error); and every string without
the `"pcm_"` prefix, or whose suffix after `"pcm_"` is not a decimal
integer (an optional sign followed by at least one digit), yields 0 and
an error. -/
theorem C10_parsePCMSampleRate_amended :
    (∀ n : Nat, n ≤ 2 ^ 63 - 1 →
      ParsePCMSampleRate (pcmPrefix ++ decimalRepr n) = ((n : Int), false)) ∧
    (∀ format : List Char,
      pcmPrefix.isPrefixOf format = false ∨ isDecimalIntStr (format.drop 4) = false →
      ParsePCMSampleRate format = (0, true)) := by
  constructor
  · intro n hn
    unfold ParsePCMSampleRate
    rw [if_pos ?hp]
    case hp => exact List.isPrefixOf_iff_prefix.mpr (List.prefix_append _ _)
    rw [show (pcmPrefix ++ decimalRepr n).drop 4 = decimalRepr n from rfl]
    rw [goAtoi_decimalRepr hn]
  · intro format hf
    unfold ParsePCMSampleRate
    rcases hf with hf | hf
    · rw [if_neg (by simp [hf])]
    · by_cases hp : pcmPrefix.isPrefixOf format
      · rw [if_pos hp, goAtoi_none_of_not_decimal hf]
      · rw [if_neg hp]

/-- C10 witness: the round trip at 16000 and the rejection of an MP3
format string. -/
theorem C10_parsePCMSampleRate_amended_witness :
    ParsePCMSampleRate (pcmPrefix ++ decimalRepr 16000) = ((16000 : Int), false) ∧
    ParsePCMSampleRate (String.toList "mp3_44100_128") = (0, true) :=
  ⟨C10_parsePCMSampleRate_amended.1 16000 (by norm_num),
   C10_parsePCMSampleRate_amended.2 (String.toList "mp3_44100_128") (Or.inl (by decide))⟩

/-- C10 counterexample to the claim as stated: at n = 2^63 (just above
Go's max int) the suffix is a perfectly good decimal numeral, yet
`strconv.Atoi` reports a range error and `ParsePCMSampleRate` returns
`(0, error)` instead of the claimed `(n, nil)`. -/
theorem C10_parsePCMSampleRate_counterexample :
    ParsePCMSampleRate (pcmPrefix ++ decimalRepr 9223372036854775808) = (0, true) ∧
    ParsePCMSampleRate (pcmPrefix ++ decimalRepr 9223372036854775808) ≠
      ((9223372036854775808 : Int), false) := by
  decide

/-- C8: `VoiceSettings.Validate` returns `nil` iff `Stability`,
`SimilarityBoost` and `Style` each lie in [0, 1] and `Speed` is either
exactly 0 (meaning "unset") or lies in [0.25, 4.0]; when it returns an
error it is the error of the first violated field in the order
Stability, SimilarityBoost, Style, Speed. -/
theorem C8_voiceSettings_validate_characterization (vs : VoiceSettings) :
    (vs.Validate = none ↔
      (0 ≤ vs.stability ∧ vs.stability ≤ 1) ∧
      (0 ≤ vs.similarityBoost ∧ vs.similarityBoost ≤ 1) ∧
      (0 ≤ vs.style ∧ vs.style ≤ 1) ∧
      (vs.speed = 0 ∨ (1/4 ≤ vs.speed ∧ vs.speed ≤ 4))) ∧
    (¬(0 ≤ vs.stability ∧ vs.stability ≤ 1) → vs.Validate = some .invalidStability) ∧
    ((0 ≤ vs.stability ∧ vs.stability ≤ 1) ∧
      ¬(0 ≤ vs.similarityBoost ∧ vs.similarityBoost ≤ 1) →
      vs.Validate = some .invalidSimilarityBoost) ∧
    ((0 ≤ vs.stability ∧ vs.stability ≤ 1) ∧
      (0 ≤ vs.similarityBoost ∧ vs.similarityBoost ≤ 1) ∧
      ¬(0 ≤ vs.style ∧ vs.style ≤ 1) → vs.Validate = some .invalidStyle) ∧
    ((0 ≤ vs.stability ∧ vs.stability ≤ 1) ∧
      (0 ≤ vs.similarityBoost ∧ vs.similarityBoost ≤ 1) ∧
      (0 ≤ vs.style ∧ vs.style ≤ 1) ∧
      ¬(vs.speed = 0 ∨ (1/4 ≤ vs.speed ∧ vs.speed ≤ 4)) →
      vs.Validate = some .invalidSpeed) := by
  have k1 : (0 ≤ vs.stability ∧ vs.stability ≤ 1) ↔
      ¬(vs.stability < 0 ∨ vs.stability > 1) := by
    rw [not_or, not_lt, not_lt]
  have k2 : (0 ≤ vs.similarityBoost ∧ vs.similarityBoost ≤ 1) ↔
      ¬(vs.similarityBoost < 0 ∨ vs.similarityBoost > 1) := by
    rw [not_or, not_lt, not_lt]
  have k3 : (0 ≤ vs.style ∧ vs.style ≤ 1) ↔ ¬(vs.style < 0 ∨ vs.style > 1) := by
    rw [not_or, not_lt, not_lt]
  have k4 : (vs.speed = 0 ∨ (1/4 ≤ vs.speed ∧ vs.speed ≤ 4)) ↔
      ¬(vs.speed ≠ 0 ∧ (vs.speed < 1/4 ∨ vs.speed > 4)) := by
    rw [not_and, not_or, not_lt, not_lt, or_iff_not_imp_left]
  refine ⟨?_, ?_, ?_, ?_, ?_⟩
  · unfold VoiceSettings.Validate
    split_ifs with h1 h2 h3 h4
    · exact iff_of_false (by simp) (fun hs => (k1.mp hs.1) h1)
    · exact iff_of_false (by simp) (fun hs => (k2.mp hs.2.1) h2)
    · exact iff_of_false (by simp) (fun hs => (k3.mp hs.2.2.1) h3)
    · exact iff_of_false (by simp) (fun hs => (k4.mp hs.2.2.2) h4)
    · exact iff_of_true rfl ⟨k1.mpr h1, k2.mpr h2, k3.mpr h3, k4.mpr h4⟩
  · intro hc
    have h1 := not_not.mp (fun h => hc (k1.mpr h))
    unfold VoiceSettings.Validate
    rw [if_pos h1]
  · rintro ⟨hs1, hc⟩
    have h2 := not_not.mp (fun h => hc (k2.mpr h))
    unfold VoiceSettings.Validate
    rw [if_neg (k1.mp hs1), if_pos h2]
  · rintro ⟨hs1, hs2, hc⟩
    have h3 := not_not.mp (fun h => hc (k3.mpr h))
    unfold VoiceSettings.Validate
    rw [if_neg (k1.mp hs1), if_neg (k2.mp hs2), if_pos h3]
  · rintro ⟨hs1, hs2, hs3, hc⟩
    have h4 := not_not.mp (fun h => hc (k4.mpr h))
    unfold VoiceSettings.Validate
    rw [if_neg (k1.mp hs1), if_neg (k2.mp hs2), if_neg (k3.mp hs3), if_pos h4]

/-- C8 witness: the characterization applied to concrete settings — the
defaults (with speed 1) validate, and a speed of 5 with otherwise valid
fields yields `ErrInvalidSpeed`. -/
theorem C8_voiceSettings_validate_characterization_witness :
    VoiceSettings.Validate ⟨1/2, 3/4, 0, 1, true⟩ = none ∧
    VoiceSettings.Validate ⟨1/2, 3/4, 0, 5, true⟩ = some .invalidSpeed :=
  ⟨(C8_voiceSettings_validate_characterization ⟨1/2, 3/4, 0, 1, true⟩).1.mpr (by norm_num),
   (C8_voiceSettings_validate_characterization ⟨1/2, 3/4, 0, 5, true⟩).2.2.2.2 (by norm_num)⟩

/-- A second `Close()` call on an already-closed session is a no-op. -/
theorem close_close (s : Session) : close ((close s).1) = ((close s).1, []) := by
  unfold close
  by_cases h : s.streamsClosed <;> simp [h]

/-- Once the streams are closed and the state is `Closed`, any number of
further `Close()` calls changes nothing and closes nothing. -/
theorem closeMany_of_closed (n : Nat) (s : Session) (h1 : s.streamsClosed = true)
    (h2 : s.state = .closed) : closeMany n s = (s, []) := by
  induction n with
  | zero => rfl
  | succ m ih =>
    have hc : close s = (s, []) := by
      unfold close
      rw [if_pos h1]
      have he : { s with state := SessState.closed } = s := by
        cases s; simp_all
      rw [he]
    unfold closeMany
    rw [hc, ih]
    rfl

/-- C1: `Close()` is valid from any state and idempotent — over any
number n ≥ 1 of calls on a session whose streams are still open, each of
the four exposed output streams is closed exactly once (the collected
close actions are exactly the four streams, once each), the session ends
`Closed`; a repeated close after any close is a no-op; and a close only
ever closes streams when its resulting state is terminal.  (Absence of
panics and of blocking is reflected by `close` being a total function of
the state.) -/
theorem C1_close_idempotent_closes_once :
    (∀ (s : Session) (n : Nat), 1 ≤ n → s.streamsClosed = false →
      (closeMany n s).2 = [.transcript, .audio, .alignment, .errorStream] ∧
      (closeMany n s).1.state = .closed) ∧
    (∀ s : Session, close ((close s).1) = ((close s).1, [])) ∧
    (∀ s : Session, (close s).2 ≠ [] →
      (close s).1.state.isTerminal = true ∧ (close s).1.streamsClosed = true) := by
  refine ⟨?_, close_close, ?_⟩
  · intro s n hn h
    obtain ⟨m, rfl⟩ : ∃ m, n = m + 1 := ⟨n - 1, by omega⟩
    have hc : close s = ({ s with state := .closed, streamsClosed := true },
        [.transcript, .audio, .alignment, .errorStream]) := by
      unfold close; rw [if_neg (by simp [h])]
    unfold closeMany
    rw [hc, closeMany_of_closed m _ rfl rfl]
    exact ⟨rfl, rfl⟩
  · intro s hne
    unfold close at hne ⊢
    by_cases h : s.streamsClosed <;> simp_all [SessState.isTerminal]

/-- C1 witness: three `Close()` calls on an open session close the four
streams exactly once and leave the session `Closed`. -/
theorem C1_close_idempotent_closes_once_witness :
    (closeMany 3 ⟨.opened, false, []⟩).2 =
      [.transcript, .audio, .alignment, .errorStream] ∧
    (closeMany 3 ⟨.opened, false, []⟩).1.state = .closed :=
  C1_close_idempotent_closes_once.1 ⟨.opened, false, []⟩ 3 (by norm_num) rfl

/-- C2: for every sequence of `SendText` calls followed by one `Flush`,
the audio chunks delivered on the audio output stream are exactly the
server's productions for the submitted texts, concatenated in submission
order (FIFO) — the multiplexer sends frames in call order, the wire and
the demultiplexer preserve order, and nothing is reordered or dropped. -/
theorem C2_audio_fifo_submission_order (synth : List Char → List (List Nat))
    (texts : List (List Char)) :
    demuxAudio (wireResponse synth (texts.map .text ++ [.flushF])) =
      (texts.map synth).flatten := by
  induction texts with
  | nil => rfl
  | cons t ts ih =>
    simp only [List.map_cons, List.cons_append, wireResponse, List.flatten_cons,
      demuxAudio, List.filterMap_append] at ih ⊢
    rw [ih]
    congr 1
    simp only [serverEvents, List.filterMap_map]
    exact List.filterMap_some (synth t)

/-- C3: no outbound command is accepted once the session has left the
Open/Flushing states — `SendAudio` after a successful `EndStream` fails
with `ErrClosed`, `SendText` after `Close` fails with `ErrClosed`, and in
any state other than Open/Flushing both sends fail with `ErrClosed`,
synchronously (the error is the operation's return value). -/
theorem C3_sends_rejected_outside_valid_states :
    (∀ (s s2 : Session) (f : OutFrame) (b : List Nat),
      endStream s = .ok (s2, f) → sendAudio s2 b = .error .errClosed) ∧
    (∀ (s : Session) (t : List Char), sendText (close s).1 t = .error .errClosed) ∧
    (∀ (s : Session) (t : List Char) (b : List Nat),
      s.state ≠ .opened ∧ s.state ≠ .flushing →
      sendText s t = .error .errClosed ∧ sendAudio s b = .error .errClosed) := by
  refine ⟨?_, ?_, ?_⟩
  · intro s s2 f b h
    unfold endStream at h
    by_cases hs : s.state = .opened
    · rw [if_pos hs] at h
      injection h with h
      injection h with h1 h2
      unfold sendAudio
      rw [← h1]
      simp
    · rw [if_neg hs] at h
      exact absurd h (by simp)
  · intro s t
    unfold sendText close
    by_cases h : s.streamsClosed <;> simp [h]
  · intro s t b ⟨h1, _⟩
    unfold sendText sendAudio
    rw [if_neg h1, if_neg h1]
    exact ⟨rfl, rfl⟩

/-- C3 witness: on a concrete open session, `SendAudio` after `EndStream`
and `SendText` after `Close` both return `ErrClosed`. -/
theorem C3_sends_rejected_outside_valid_states_witness :
    sendAudio ⟨.flushing, false, []⟩ [1, 2] = .error .errClosed ∧
    sendText (close ⟨.opened, false, []⟩).1 ['h', 'i'] = .error .errClosed :=
  ⟨C3_sends_rejected_outside_valid_states.1 ⟨.opened, false, []⟩
      ⟨.flushing, false, []⟩ .endF [1, 2] rfl,
   C3_sends_rejected_outside_valid_states.2.1 ⟨.opened, false, []⟩ ['h', 'i']⟩

/-- C4: `Connect` validates options synchronously — whenever validation
fails (in particular for SampleRate = 0) it returns the `ValidationError`
as its synchronous result with no network activity whatsoever and nothing
on any asynchronous error stream. -/
theorem C4_connect_validation_synchronous :
    (∀ (o : Options) (hs : Bool) (e : ConnError), validateOptions o = some e →
      (connect o hs).result = .error e ∧
      (connect o hs).networkAttempted = false ∧
      (connect o hs).asyncErrors = []) ∧
    (∀ (o : Options) (hs : Bool), o.sampleRate = 0 →
      (connect o hs).result = .error (.validationError "SampleRate") ∧
      (connect o hs).networkAttempted = false ∧
      (connect o hs).asyncErrors = []) := by
  constructor
  · intro o hs e h
    unfold connect
    rw [h]
    exact ⟨rfl, rfl, rfl⟩
  · intro o hs h
    unfold connect validateOptions
    rw [if_pos h]
    exact ⟨rfl, rfl, rfl⟩

/-- C4 witness: a concrete `Connect` with SampleRate = 0 returns the
validation error synchronously and attempts no connection. -/
theorem C4_connect_validation_synchronous_witness :
    (connect ⟨"model", 0, "pcm_s16le", true, true, "pcm_16000", 3⟩ true).result =
      .error (.validationError "SampleRate") ∧
    (connect ⟨"model", 0, "pcm_s16le", true, true, "pcm_16000", 3⟩ true).networkAttempted
      = false ∧
    (connect ⟨"model", 0, "pcm_s16le", true, true, "pcm_16000", 3⟩ true).asyncErrors = [] :=
  C4_connect_validation_synchronous.2 ⟨"model", 0, "pcm_s16le", true, true, "pcm_16000", 3⟩
    true rfl

/-- C5: the shutdown sequence closes the per-type output streams in the
fixed order transcript, audio, alignment, error stream (error stream
strictly last), and a fatal error, when present, is delivered on the
error stream strictly before any stream closure — it is the first step of
the sequence. -/
theorem C5_shutdown_error_first_error_stream_last :
    (∀ k : StreamErrKind, shutdownSeq (some k) =
      [.emitError k, .closeStream .transcript, .closeStream .audio,
        .closeStream .alignment, .closeStream .errorStream]) ∧
    (∀ f, (shutdownSeq f).getLast? = some (.closeStream .errorStream)) ∧
    shutdownSeq none =
      [.closeStream .transcript, .closeStream .audio, .closeStream .alignment,
        .closeStream .errorStream] := by
  refine ⟨fun k => rfl, ?_, rfl⟩
  intro f
  cases f <;> rfl

/-- C6: `StreamText` on an input stream closed with zero items issues
exactly one `Flush` and closes its output stream with a clean (nil)
terminal slot; in general the helper sends the input items in order
followed by exactly one `Flush` (`StreamAudio`: exactly one `EndStream`),
and populates the single-value terminal-error slot exactly once — with
`none` on clean completion or the terminal error otherwise. -/
theorem C6_streamText_flush_exactly_once :
    ((streamText [] none).sent = [.flushF] ∧
      (streamText [] none).terminalWrites = [none] ∧
      (streamText [] none).outputClosed = true) ∧
    (∀ (input : List (List Char)) (o : Option StreamErrKind),
      ((streamText input o).sent.count .flushF = 1) ∧
      (streamText input o).sent = input.map .text ++ [.flushF] ∧
      (streamText input o).terminalWrites = [o] ∧
      (streamText input o).outputClosed = true) ∧
    (∀ (input : List (List Nat)) (o : Option StreamErrKind),
      ((streamAudio input o).sent.count .endF = 1) ∧
      (streamAudio input o).terminalWrites = [o]) := by
  refine ⟨⟨rfl, rfl, rfl⟩, ?_, ?_⟩
  · intro input o
    refine ⟨?_, rfl, rfl, rfl⟩
    simp only [streamText, List.count_append]
    rw [List.count_eq_zero.mpr (by simp)]
    rfl
  · intro input o
    refine ⟨?_, rfl⟩
    simp only [streamAudio, List.count_append]
    rw [List.count_eq_zero.mpr (by simp)]
    rfl

/-- C7: calling `Flush` on a session already in the `Flushing` state is
an idempotent no-op — it returns without error and the session (state and
pending output included) is returned unchanged. -/
theorem C7_flush_idempotent_while_flushing (s : Session) (h : s.state = .flushing) :
    flush s = .ok s := by
  unfold flush
  rw [h]

/-- C7 witness: a concrete flushing session with pending output is
returned unchanged by a second `Flush`. -/
theorem C7_flush_idempotent_while_flushing_witness :
    flush ⟨.flushing, false, [[1, 2]]⟩ = .ok ⟨.flushing, false, [[1, 2]]⟩ :=
  C7_flush_idempotent_while_flushing ⟨.flushing, false, [[1, 2]]⟩ rfl

end ElevenLabs
